import Mathlib

/-!
# Verification of the terminal-ide navigation-and-edit-session state machine

Shallow embedding of `src/main.py` (the `Explorer` widget and the
`TerminalIDE` app): directory listing with the synthetic ".." entry,
live name filtering, the dirty/clean lifecycle of the editor buffer,
and the unsaved-changes confirmation gate.

Paths are modelled as lists of components (already resolved, absolute;
the empty list is the filesystem root).  The filesystem is an explicit
oracle record: which paths exist / are directories, the children of a
directory (`none` models a `PermissionError` raised by `iterdir`), the
text produced by reading a file (read errors are folded into the
diagnostic placeholder string by `Editor.show_file`, so reading always
yields a string), whether `write_text` succeeds, and the result of
`Path(value).expanduser().resolve()` (`none` models a raised exception).

Widget-only concerns (focus, status-bar repaint, CSS, key bindings) are
presentation and are not modelled; every state-bearing field of the
Python classes is.
-/

namespace TermIDE

/-- An absolute, resolved filesystem path, as its list of components.
`[]` is the root `/`. -/
abbrev FPath := List String

/-- `pathlib`'s `.parent`: drop the last component; at the root,
`Path("/").parent == Path("/")`, which `List.dropLast [] = []` matches. -/
def FPath.parentDir (p : FPath) : FPath := p.dropLast

/-- `str(Path)` for our resolved absolute paths. -/
def showPath (p : FPath) : String :=
  match p with
  | [] => "/"
  | _ => "/" ++ String.intercalate "/" p

/-- One raw child as the filesystem reports it: its base name and
whether it is a directory. -/
structure FSChild where
  name : String
  isDir : Bool
deriving Repr, DecidableEq

/-- The filesystem oracle consumed by the program. -/
structure FS where
  pathExists : FPath → Bool
  isDirB : FPath → Bool
  /-- `iterdir` result; `none` models a raised `PermissionError`. -/
  childrenOf : FPath → Option (List FSChild)
  /-- Text shown by `Editor.show_file` (its `try/except` folds every
  read failure into a placeholder string, so this is total). -/
  readText : FPath → String
  /-- Whether `path.write_text(text)` succeeds. -/
  writeOk : FPath → Bool
  /-- `Path(value).expanduser().resolve()`; `none` models a raised
  exception while resolving. -/
  resolvePath : String → Option FPath

/-- Python `str.lower()` (character-wise, structurally recursive so the
kernel can evaluate it). -/
def lowerStr (s : String) : String := ⟨s.data.map Char.toLower⟩

/-- Python `str.startswith(pre)`. -/
def strStartsWith (s pre : String) : Bool := pre.data.isPrefixOf s.data

/-- Python `str.strip()`: drop whitespace from both ends. -/
def strTrim (s : String) : String :=
  ⟨((s.data.dropWhile Char.isWhitespace).reverse.dropWhile Char.isWhitespace).reverse⟩

/-- Substring test on character lists (Python's `q in s`). -/
def isSubstr (needle : List Char) : List Char → Bool
  | [] => needle.isEmpty
  | c :: t => needle.isPrefixOf (c :: t) || isSubstr needle t

/-- Python `needle in hay` on strings. -/
def strContains (hay needle : String) : Bool := isSubstr needle.data hay.data

/-- Lexicographic order on code points (Python's `str` comparison). -/
def charListLT : List Char → List Char → Bool
  | _, [] => false
  | [], _ :: _ => true
  | a :: as, b :: bs =>
    decide (a.toNat < b.toNat) || (decide (a.toNat = b.toNat) && charListLT as bs)

/-- Python `a < b` on strings. -/
def strLT (a b : String) : Bool := charListLT a.data b.data

/-- Python's sort key `(0 if p.is_dir() else 1, p.name.lower())`,
as a strict comparison for a stable insertion sort. -/
def childLT (a b : FSChild) : Bool :=
  let da : Nat := if a.isDir then 0 else 1
  let db : Nat := if b.isDir then 0 else 1
  decide (da < db) || (decide (da = db) && strLT (lowerStr a.name) (lowerStr b.name))

/-- Insert `x` after every element not strictly greater than it
(keeps Python's stable sort order for equal keys). -/
def insertChild (x : FSChild) : List FSChild → List FSChild
  | [] => [x]
  | y :: ys => if childLT x y then x :: y :: ys else y :: insertChild x ys

/-- Stable sort matching Python's `sorted(path.iterdir(), key=...)`. -/
def sortChildren (cs : List FSChild) : List FSChild :=
  cs.foldl (fun acc x => insertChild x acc) []

/-- `ExplorerEntry` dataclass: `is_up` marks the synthetic ".." item. -/
structure ExplorerEntry where
  path : FPath
  is_dir : Bool
  is_up : Bool := false
  name : String := ""
deriving Repr, DecidableEq

/-- The state of the `Explorer(ListView)` widget: the current directory,
the hidden-files flag, the unfiltered master list `_entries`, and the
rendered `ListView` rows (`children`, each row's attached `data`) with
the highlighted `index`. -/
structure Explorer where
  current_path : FPath
  show_hidden : Bool
  entries : List ExplorerEntry
  children : List ExplorerEntry
  index : Option Nat
deriving Repr, DecidableEq

/-- `Explorer._render_entries`: clear the `ListView`, append one row per
entry, then highlight the first row when the list is non-empty. -/
def render_entries (ex : Explorer) (es : List ExplorerEntry) : Explorer :=
  { ex with children := es, index := if es.length > 0 then some 0 else none }

/-- The synthetic ".." entry for directory `p`: its target is the parent,
or `p` itself at the root (`path.parent if path.parent != path else path`). -/
def upEntryOf (p : FPath) : ExplorerEntry :=
  { path := FPath.parentDir p, is_dir := true, is_up := true, name := ".." }

/-- The visible (hidden-filtered) child entries built by
`Explorer.load_directory`'s `for p in items` loop. -/
def childEntries (showHidden : Bool) (p : FPath) (items : List FSChild) :
    List ExplorerEntry :=
  items.filterMap (fun c =>
    let nm := c.name ++ (if c.isDir then "/" else "")
    if ¬ showHidden ∧ strStartsWith nm "." then none
    else some { path := p ++ [c.name], is_dir := c.isDir, is_up := false, name := nm })

/-- The `try: sorted(path.iterdir(), ...) except PermissionError: []`
block of `load_directory`. -/
def listedChildren (fs : FS) (p : FPath) : List FSChild :=
  match fs.childrenOf p with
  | none => []
  | some cs => sortChildren cs

/-- `Explorer.load_directory`: silently return when the target does not
exist or is not a directory; otherwise rebuild the master list — ".."
first, then the sorted, hidden-filtered children (a `PermissionError`
from `iterdir` yields an empty child list) — and render it unfiltered. -/
def load_directory (fs : FS) (ex : Explorer) (p : FPath) : Explorer :=
  if ¬ (fs.pathExists p && fs.isDirB p) then ex
  else
    let es := upEntryOf p :: childEntries ex.show_hidden p (listedChildren fs p)
    render_entries { ex with current_path := p, entries := es } es

/-- `Explorer.apply_filter`: empty query renders the master list;
otherwise render the entries that are the ".." item or whose name
contains the lowered query. -/
def apply_filter (ex : Explorer) (query : String) : Explorer :=
  if query = "" then render_entries ex ex.entries
  else
    let q := lowerStr query
    render_entries ex
      (ex.entries.filter (fun e => e.is_up || strContains (lowerStr e.name) q))

/-- `Explorer.get_selected_entry`: the `data` of the row at `index`,
if any. -/
def get_selected_entry (ex : Explorer) : Option ExplorerEntry :=
  match ex.index with
  | none => none
  | some i => ex.children.get? i

/-- The `Input` widget placeholder while the app waits for a save path. -/
def savePromptPlaceholder : String := "Введите путь для сохранения и нажмите Enter…"

/-- The `Input` widget placeholder in normal filter mode. -/
def filterPlaceholder : String := "Быстрый фильтр по имени…"

/-- The state-bearing fields of the `TerminalIDE` app: the explorer,
the edit session (`current_file`, the editor's text, `_dirty`), the
save-as flag `_awaiting_save_path`, and the `Input` widget's
placeholder and value. -/
structure IDE where
  explorer : Explorer
  current_file : Option FPath
  editor_text : String
  dirty : Bool
  awaiting_save_path : Bool
  filter_value : String
  filter_placeholder : String
deriving Repr, DecidableEq

/-- Observable side effects of one handled intent. -/
inductive Effect where
  /-- `self.exit()` — the application quits. -/
  | exitApp
  /-- `path.write_text(text)` succeeded (the write reached the disk). -/
  | wrote (p : FPath)
  /-- `self.notify("Ошибка сохранения: ...", severity="error")`. -/
  | saveError
  /-- `self.bell()` after a successful save. -/
  | bell
  /-- `SaveConfirm` modal pushed — the unsaved-changes gate fired. -/
  | prompted
  /-- The file at `p` was loaded into the editor (`_open_file`). -/
  | openedFile (p : FPath)
  /-- An exception escaped the handler (only `Path(...).resolve()` can). -/
  | raised
deriving Repr, DecidableEq

/-- The three `SaveConfirm` resolutions (`dismiss` button ids; a missing
result is already folded to `cancel` by `_confirm_unsaved`). -/
inductive Answer where
  | save
  | discard
  | cancel
deriving Repr, DecidableEq

/-- `TerminalIDE._current_dir`. -/
def current_dir (s : IDE) : FPath := s.explorer.current_path

/-- `TerminalIDE._write_to_path`: on success set `current_file`, clear
`dirty`, ring the bell; on any exception notify the save error and
change nothing. -/
def write_to_path (fs : FS) (s : IDE) (p : FPath) : IDE × List Effect :=
  if fs.writeOk p then
    ({ s with current_file := some p, dirty := false }, [Effect.wrote p, Effect.bell])
  else
    (s, [Effect.saveError])

/-- `TerminalIDE._open_file`: load the file into the editor, set
`current_file`, clear `dirty`. -/
def open_file (fs : FS) (s : IDE) (p : FPath) : IDE × List Effect :=
  ({ s with editor_text := fs.readText p, current_file := some p, dirty := false },
   [Effect.openedFile p])

/-- `TerminalIDE.action_save_file_as`: switch the `Input` widget into
save-path mode, prefill it with the current file (or
`current_dir/untitled.txt`), and set `_awaiting_save_path`. -/
def action_save_file_as (s : IDE) : IDE × List Effect :=
  ({ s with
      filter_placeholder := savePromptPlaceholder,
      filter_value := showPath (s.current_file.getD (current_dir s ++ ["untitled.txt"])),
      awaiting_save_path := true }, [])

/-- `TerminalIDE.action_save_file`: with no current file fall through to
save-as; otherwise write to the current file. -/
def action_save_file (fs : FS) (s : IDE) : IDE × List Effect :=
  match s.current_file with
  | none => action_save_file_as s
  | some p => write_to_path fs s p

/-- `TerminalIDE._maybe_proceed_after_unsaved`, with the modal's answer
passed explicitly (the code awaits `_confirm_unsaved` only in the dirty
branch, hence `Effect.prompted` there). -/
def maybe_proceed_after_unsaved (fs : FS) (s : IDE) (next_file : Option FPath)
    (quitting : Bool) (ans : Answer) : IDE × List Effect :=
  if s.dirty = false then
    if quitting then (s, [Effect.exitApp])
    else
      match next_file with
      | some p => open_file fs s p
      | none => (s, [])
  else
    match ans with
    | Answer.save =>
      let s1 :=
        match s.current_file, next_file with
        | none, some nf => { s with current_file := some nf }
        | _, _ => s
      match s1.current_file with
      | none =>
        let r := action_save_file_as s1
        (r.1, Effect.prompted :: r.2)
      | some cf =>
        let r := write_to_path fs s1 cf
        if quitting then
          (r.1, Effect.prompted :: r.2 ++ [Effect.exitApp])
        else
          match next_file with
          | some nf =>
            let r2 := open_file fs r.1 nf
            (r2.1, Effect.prompted :: r.2 ++ r2.2)
          | none => (r.1, Effect.prompted :: r.2)
    | Answer.discard =>
      if quitting then (s, [Effect.prompted, Effect.exitApp])
      else
        match next_file with
        | some nf =>
          let r := open_file fs s nf
          (r.1, Effect.prompted :: r.2)
        | none => (s, [Effect.prompted])
    | Answer.cancel => (s, [Effect.prompted])

/-- `TerminalIDE.action_go_up`: load the parent directory (never gated). -/
def action_go_up (fs : FS) (s : IDE) : IDE × List Effect :=
  ({ s with explorer :=
      load_directory fs s.explorer (FPath.parentDir s.explorer.current_path) }, [])

/-- `TerminalIDE.action_refresh_tree`: re-list the current directory. -/
def action_refresh_tree (fs : FS) (s : IDE) : IDE × List Effect :=
  ({ s with explorer := load_directory fs s.explorer s.explorer.current_path }, [])

/-- `TerminalIDE.action_toggle_hidden`: flip the flag and re-list. -/
def action_toggle_hidden (fs : FS) (s : IDE) : IDE × List Effect :=
  let ex := { s.explorer with show_hidden := ! s.explorer.show_hidden }
  ({ s with explorer := load_directory fs ex ex.current_path }, [])

/-- `TerminalIDE.action_open_selected`: ".." goes up, a directory is
entered, a file is opened in the editor — directly via `_open_file`,
with no unsaved-changes gate on this path. -/
def action_open_selected (fs : FS) (s : IDE) : IDE × List Effect :=
  match get_selected_entry s.explorer with
  | none => (s, [])
  | some e =>
    if e.is_up then action_go_up fs s
    else if e.is_dir then
      ({ s with explorer := load_directory fs s.explorer e.path }, [])
    else
      open_file fs s e.path

/-- `TerminalIDE.on_input_submitted`: in save-path mode resolve the
typed path and write to it, and in all cases — the `finally` block, which
runs even when `Path(...).resolve()` raises — leave save-path mode and
restore the filter placeholder and an empty value.  In filter mode apply
the stripped, lowered query. -/
def on_input_submitted (fs : FS) (s : IDE) (value : String) : IDE × List Effect :=
  if s.awaiting_save_path then
    let r :=
      match fs.resolvePath value with
      | some p => write_to_path fs s p
      | none => (s, [Effect.raised])
    ({ r.1 with
        awaiting_save_path := false,
        filter_placeholder := filterPlaceholder,
        filter_value := "" }, r.2)
  else
    ({ s with explorer := apply_filter s.explorer (lowerStr (strTrim value)) }, [])

/-- `TerminalIDE.on_input_changed`: ignored entirely in save-path mode;
otherwise live-apply the stripped, lowered query. -/
def on_input_changed (s : IDE) (value : String) : IDE × List Effect :=
  if s.awaiting_save_path then (s, [])
  else ({ s with explorer := apply_filter s.explorer (lowerStr (strTrim value)) }, [])

/-- `TerminalIDE.action_quit`: the only caller of the gate; pends a quit. -/
def action_quit (fs : FS) (s : IDE) (ans : Answer) : IDE × List Effect :=
  maybe_proceed_after_unsaved fs s none true ans

/-- `TerminalIDE.on_text_area_changed` for an edit of the editor's
buffer: the widget holds the new text; the handler sets `dirty`. -/
def edit_buffer (s : IDE) (t : String) : IDE × List Effect :=
  ({ s with editor_text := t, dirty := true }, [])

/-- The discrete user intents the app handles, one constructor per
handler reachable from the bindings and widget events. -/
inductive Op where
  | editBuffer (t : String)
  | openSelected
  | goUp
  | refreshTree
  | toggleHidden
  | saveFile
  | saveFileAs
  | inputSubmitted (v : String)
  | inputChanged (v : String)
  | quitApp (ans : Answer)
deriving Repr, DecidableEq

/-- One step of the event loop: dispatch an intent to its handler. -/
def step (fs : FS) (op : Op) (s : IDE) : IDE × List Effect :=
  match op with
  | Op.editBuffer t => edit_buffer s t
  | Op.openSelected => action_open_selected fs s
  | Op.goUp => action_go_up fs s
  | Op.refreshTree => action_refresh_tree fs s
  | Op.toggleHidden => action_toggle_hidden fs s
  | Op.saveFile => action_save_file fs s
  | Op.saveFileAs => action_save_file_as s
  | Op.inputSubmitted v => on_input_submitted fs s v
  | Op.inputChanged v => on_input_changed s v
  | Op.quitApp ans => action_quit fs s ans

/-! ## Concrete sample filesystem and states, used to evaluate the model -/

/-- A small filesystem: root holds `a.txt`, directory `d`, hidden `.h`;
every write fails; resolving a typed path raises. -/
def fsA : FS where
  pathExists := fun p => decide (p = [] ∨ p = ["a.txt"] ∨ p = ["d"])
  isDirB := fun p => decide (p = [] ∨ p = ["d"])
  childrenOf := fun p =>
    if p = [] then some [⟨"a.txt", false⟩, ⟨"d", true⟩, ⟨".h", false⟩]
    else some []
  readText := fun _ => "file content"
  writeOk := fun _ => false
  resolvePath := fun _ => none

/-- `fsA` with enumeration failing with `PermissionError` everywhere. -/
def fsPerm : FS := { fsA with childrenOf := fun _ => none }

/-- The explorer before `on_mount`. -/
def exInit : Explorer :=
  { current_path := [], show_hidden := false, entries := [], children := [], index := none }

/-- The explorer after listing the root of `fsA`:
rows `[.., d/, a.txt]`, selection on row 0. -/
def exA : Explorer := load_directory fsA exInit []

/-- A dirty session over `exA` with an existing current file. -/
def sA : IDE :=
  { explorer := exA, current_file := some ["old.txt"], editor_text := "edited text",
    dirty := true, awaiting_save_path := false, filter_value := "",
    filter_placeholder := filterPlaceholder }

/-- `sA` with the explorer selection moved to the file row `a.txt`. -/
def sSel : IDE := { sA with explorer := { exA with index := some 2 } }

/-- `sA` with no current file (unsaved new buffer). -/
def sNoPath : IDE := { sA with current_file := none }

/-- `sA` while the save-as prompt is active. -/
def sAwait : IDE :=
  { sA with awaiting_save_path := true,
            filter_placeholder := savePromptPlaceholder, filter_value := "/old.txt" }

/-! ## Helper lemmas -/

lemma render_entries_index_shape (ex : Explorer) (es : List ExplorerEntry) :
    (render_entries ex es).index =
      if (render_entries ex es).children.length = 0 then none else some 0 := by
  by_cases h : es.length = 0
  · simp [render_entries, h]
  · simp [render_entries, h, Nat.pos_of_ne_zero h]

lemma childEntries_not_up (sh : Bool) (p : FPath) (items : List FSChild) :
    ∀ e ∈ childEntries sh p items, e.is_up = false := by
  intro e he
  simp only [childEntries, List.mem_filterMap] at he
  obtain ⟨c, -, hc⟩ := he
  by_cases h : ¬ sh = true ∧ strStartsWith (c.name ++ if c.isDir then "/" else "") "." = true
  · simp [h] at hc
  · rw [if_neg h] at hc
    cases hc
    rfl

lemma up_first_countP (rest : List ExplorerEntry) (p : FPath)
    (h : ∀ e ∈ rest, e.is_up = false) :
    (upEntryOf p :: rest).countP (fun e => e.is_up) = 1 := by
  have h0 : rest.countP (fun e => e.is_up) = 0 := by
    rw [List.countP_eq_zero]
    intro e he
    simp [h e he]
  simp [List.countP_cons, h0, upEntryOf]

lemma load_directory_entries_eq (fs : FS) (ex : Explorer) (p : FPath)
    (he : fs.pathExists p = true) (hd : fs.isDirB p = true) :
    (load_directory fs ex p).entries =
      upEntryOf p :: childEntries ex.show_hidden p (listedChildren fs p) ∧
    (load_directory fs ex p).children = (load_directory fs ex p).entries := by
  simp [load_directory, he, hd, render_entries]

/-! ## The claims -/

/-- C1: the claim requires every dirty-discarding action to route through
the unsaved-changes gate.  The code violates it: at the concrete state
`sSel` — dirty session, explorer selection on the plain file `a.txt` —
the open-selected intent replaces the session at once (`current_file`
becomes the selected file, `dirty` is cleared, the file is loaded),
and the `SaveConfirm` gate is never shown.  Quitting at the same state
does show the gate, so the gate machinery exists but this caller
bypasses it. -/
theorem C1_open_selected_bypasses_gate :
    sSel.dirty = true ∧
    (get_selected_entry sSel.explorer) = some ⟨["a.txt"], false, false, "a.txt"⟩ ∧
    (step fsA Op.openSelected sSel).1.current_file = some ["a.txt"] ∧
    (step fsA Op.openSelected sSel).1.dirty = false ∧
    Effect.prompted ∉ (step fsA Op.openSelected sSel).2 ∧
    Effect.prompted ∈ (step fsA (Op.quitApp Answer.cancel) sSel).2 := by decide

/-- C2 counterexample: at the concrete dirty state `sA` whose write to
`old.txt` fails, resolving the gate with Save still executes the pending
quit (`exitApp` is emitted after the reported save error), refuting
"the pending action is not executed". -/
theorem C2_counterexample :
    sA.dirty = true ∧
    sA.current_file = some ["old.txt"] ∧
    fsA.writeOk ["old.txt"] = false ∧
    Effect.saveError ∈ (step fsA (Op.quitApp Answer.save) sA).2 ∧
    Effect.exitApp ∈ (step fsA (Op.quitApp Answer.save) sA).2 := by decide

/-- C2 (amended): when the gate over a dirty session with a current file
is resolved with Save and the write fails, the save error is reported
and the session state is left unchanged (still dirty), but the pending
quit is executed anyway rather than being treated as Cancel. -/
theorem C2_save_failure_reports_but_still_proceeds (fs : FS) (s : IDE) (p : FPath)
    (hd : s.dirty = true) (hf : s.current_file = some p) (hw : fs.writeOk p = false) :
    step fs (Op.quitApp Answer.save) s =
      (s, [Effect.prompted, Effect.saveError, Effect.exitApp]) := by
  simp [step, action_quit, maybe_proceed_after_unsaved, hd, hf, write_to_path, hw]

/-- C2 witness: the amended theorem evaluated at `fsA`, `sA`, `old.txt`. -/
theorem C2_witness :
    step fsA (Op.quitApp Answer.save) sA =
      (sA, [Effect.prompted, Effect.saveError, Effect.exitApp]) :=
  C2_save_failure_reports_but_still_proceeds fsA sA ["old.txt"]
    (by decide) (by decide) (by decide)

/-- C3: resolving the gate over a dirty, path-less session with Save
activates the save-as path prompt before any write: the session (dirty
flag, missing path, text, explorer) is untouched, no write effect and no
quit effect are emitted, and — since nothing was written or executed —
abandoning the prompt leaves the resolution a no-op, i.e. a Cancel. -/
theorem C3_gate_save_without_path_prompts_first (fs : FS) (s : IDE)
    (hd : s.dirty = true) (hf : s.current_file = none) :
    (step fs (Op.quitApp Answer.save) s).1.awaiting_save_path = true ∧
    (step fs (Op.quitApp Answer.save) s).1.filter_placeholder = savePromptPlaceholder ∧
    (step fs (Op.quitApp Answer.save) s).1.dirty = true ∧
    (step fs (Op.quitApp Answer.save) s).1.current_file = none ∧
    (step fs (Op.quitApp Answer.save) s).1.editor_text = s.editor_text ∧
    (step fs (Op.quitApp Answer.save) s).1.explorer = s.explorer ∧
    (∀ q, Effect.wrote q ∉ (step fs (Op.quitApp Answer.save) s).2) ∧
    Effect.exitApp ∉ (step fs (Op.quitApp Answer.save) s).2 := by
  have h : step fs (Op.quitApp Answer.save) s =
      ({ s with filter_placeholder := savePromptPlaceholder,
                filter_value := showPath (current_dir s ++ ["untitled.txt"]),
                awaiting_save_path := true }, [Effect.prompted]) := by
    simp [step, action_quit, maybe_proceed_after_unsaved, hd, hf,
      action_save_file_as, current_dir]
  rw [h]
  refine ⟨rfl, rfl, hd, hf, rfl, rfl, ?_, ?_⟩ <;> simp

/-- C3 witness: the theorem evaluated at `fsA` and the path-less dirty
state `sNoPath`. -/
theorem C3_witness :
    (step fsA (Op.quitApp Answer.save) sNoPath).1.awaiting_save_path = true ∧
    (step fsA (Op.quitApp Answer.save) sNoPath).1.filter_placeholder = savePromptPlaceholder ∧
    (step fsA (Op.quitApp Answer.save) sNoPath).1.dirty = true ∧
    (step fsA (Op.quitApp Answer.save) sNoPath).1.current_file = none ∧
    (step fsA (Op.quitApp Answer.save) sNoPath).1.editor_text = sNoPath.editor_text ∧
    (step fsA (Op.quitApp Answer.save) sNoPath).1.explorer = sNoPath.explorer ∧
    (∀ q, Effect.wrote q ∉ (step fsA (Op.quitApp Answer.save) sNoPath).2) ∧
    Effect.exitApp ∉ (step fsA (Op.quitApp Answer.save) sNoPath).2 :=
  C3_gate_save_without_path_prompts_first fsA sNoPath (by decide) (by decide)

/-- C4: resolving the gate over a dirty session with Cancel returns the
whole application state — edit session and navigation state — exactly
unchanged, and emits nothing but the prompt itself: no open, no quit,
no write, for any pending action. -/
theorem C4_gate_cancel_is_a_frame (fs : FS) (s : IDE) (next_file : Option FPath)
    (quitting : Bool) (hd : s.dirty = true) :
    maybe_proceed_after_unsaved fs s next_file quitting Answer.cancel =
      (s, [Effect.prompted]) := by
  simp [maybe_proceed_after_unsaved, hd]

/-- C4 witness: the theorem evaluated at `fsA`, the dirty state `sA`,
and the program's actual gate invocation (pending quit). -/
theorem C4_witness :
    maybe_proceed_after_unsaved fsA sA none true Answer.cancel =
      (sA, [Effect.prompted]) :=
  C4_gate_cancel_is_a_frame fsA sA none true (by decide)

/-- C5: dirty monotonicity — under every intent the dirty flag can only
fall from `true` to `false` when a write actually succeeded or another
file was opened into the editor; and a failed write is a strict no-op on
the state that reports the save error (never silently swallowed). -/
theorem C5_dirty_monotone_until_save_or_open :
    (∀ (fs : FS) (op : Op) (s : IDE), s.dirty = true →
      (step fs op s).1.dirty = true ∨
      (∃ p, Effect.wrote p ∈ (step fs op s).2) ∨
      (∃ p, Effect.openedFile p ∈ (step fs op s).2)) ∧
    (∀ (fs : FS) (s : IDE) (p : FPath), fs.writeOk p = false →
      write_to_path fs s p = (s, [Effect.saveError])) := by
  constructor
  · intro fs op s hd
    cases op with
    | editBuffer t => exact Or.inl (by simp [step, edit_buffer])
    | goUp => exact Or.inl (by simp [step, action_go_up, hd])
    | refreshTree => exact Or.inl (by simp [step, action_refresh_tree, hd])
    | toggleHidden => exact Or.inl (by simp [step, action_toggle_hidden, hd])
    | saveFileAs => exact Or.inl (by simp [step, action_save_file_as, hd])
    | inputChanged v =>
      by_cases ha : s.awaiting_save_path = true
      · exact Or.inl (by simp [step, on_input_changed, ha, hd])
      · rw [Bool.not_eq_true] at ha
        exact Or.inl (by simp [step, on_input_changed, ha, hd])
    | openSelected =>
      rcases h : get_selected_entry s.explorer with - | e
      · exact Or.inl (by simp [step, action_open_selected, h, hd])
      · by_cases hu : e.is_up = true
        · exact Or.inl (by simp [step, action_open_selected, h, hu, action_go_up, hd])
        · rw [Bool.not_eq_true] at hu
          by_cases hdir : e.is_dir = true
          · exact Or.inl (by simp [step, action_open_selected, h, hu, hdir, hd])
          · rw [Bool.not_eq_true] at hdir
            refine Or.inr (Or.inr ⟨e.path, ?_⟩)
            simp [step, action_open_selected, h, hu, hdir, open_file]
    | saveFile =>
      rcases h : s.current_file with - | p
      · exact Or.inl (by simp [step, action_save_file, h, action_save_file_as, hd])
      · by_cases hw : fs.writeOk p = true
        · exact Or.inr (Or.inl ⟨p, by simp [step, action_save_file, h, write_to_path, hw]⟩)
        · rw [Bool.not_eq_true] at hw
          exact Or.inl (by simp [step, action_save_file, h, write_to_path, hw, hd])
    | inputSubmitted v =>
      by_cases ha : s.awaiting_save_path = true
      · rcases hr : fs.resolvePath v with - | p
        · exact Or.inl (by simp [step, on_input_submitted, ha, hr, hd])
        · by_cases hw : fs.writeOk p = true
          · exact Or.inr (Or.inl ⟨p,
              by simp [step, on_input_submitted, ha, hr, write_to_path, hw]⟩)
          · rw [Bool.not_eq_true] at hw
            exact Or.inl
              (by simp [step, on_input_submitted, ha, hr, write_to_path, hw, hd])
      · rw [Bool.not_eq_true] at ha
        exact Or.inl (by simp [step, on_input_submitted, ha, hd])
    | quitApp ans =>
      cases ans with
      | cancel =>
        exact Or.inl (by simp [step, action_quit, maybe_proceed_after_unsaved, hd])
      | discard =>
        exact Or.inl (by simp [step, action_quit, maybe_proceed_after_unsaved, hd])
      | save =>
        rcases h : s.current_file with - | cf
        · exact Or.inl (by
            simp [step, action_quit, maybe_proceed_after_unsaved, hd, h,
              action_save_file_as])
        · by_cases hw : fs.writeOk cf = true
          · refine Or.inr (Or.inl ⟨cf, ?_⟩)
            simp [step, action_quit, maybe_proceed_after_unsaved, hd, h,
              write_to_path, hw]
          · rw [Bool.not_eq_true] at hw
            exact Or.inl (by
              simp [step, action_quit, maybe_proceed_after_unsaved, hd, h,
                write_to_path, hw])
  · intro fs s p hw
    simp [write_to_path, hw]

/-- C5 witness: at `fsA`/`sA` (dirty, write fails) a save request leaves
the session dirty; at a successful write the effect list records it. -/
theorem C5_witness :
    ((step fsA Op.saveFile sA).1.dirty = true ∨
      (∃ p, Effect.wrote p ∈ (step fsA Op.saveFile sA).2) ∨
      (∃ p, Effect.openedFile p ∈ (step fsA Op.saveFile sA).2)) ∧
    write_to_path fsA sA ["old.txt"] = (sA, [Effect.saveError]) :=
  ⟨C5_dirty_monotone_until_save_or_open.1 fsA Op.saveFile sA (by decide),
   C5_dirty_monotone_until_save_or_open.2 fsA sA ["old.txt"] (by decide)⟩

/-- C6 counterexample: at the concrete explorer `exA` with selection on
row 1, re-applying the empty filter keeps a view of 3 rows — so index 1
is still within bounds — yet the selection is reset to row 0 instead of
staying at row 1, refuting the claimed clamping behaviour. -/
theorem C6_counterexample :
    ({ exA with index := some 1 } : Explorer).index = some 1 ∧
    1 < (apply_filter { exA with index := some 1 } "").children.length ∧
    (apply_filter { exA with index := some 1 } "").index = some 0 := by decide

/-- C6 (amended): `apply_filter` recomputes the view from the master
list, leaves the master list itself unchanged, and resets the selection:
the index becomes 0 whenever the new view is non-empty and undefined
when it is empty, regardless of the previous selection. -/
theorem C6_filter_resets_selection_to_zero (ex : Explorer) (q : String) :
    ((apply_filter ex q).index =
      if (apply_filter ex q).children.length = 0 then none else some 0) ∧
    (apply_filter ex q).entries = ex.entries := by
  have h1 : apply_filter ex q = render_entries ex
      (if q = "" then ex.entries
       else ex.entries.filter (fun e => e.is_up || strContains (lowerStr e.name) (lowerStr q))) := by
    unfold apply_filter
    by_cases h : q = "" <;> simp [h]
  rw [h1]
  exact ⟨render_entries_index_shape ex _, rfl⟩

/-- C7 counterexample: listing the non-existent `gone` (whose nearest
existing ancestor is the root) changes nothing at all — the current
directory stays `d`, nothing signals an error and no fallback happens,
refuting "signals a NavigationError and falls back to an ancestor". -/
theorem C7_counterexample :
    fsA.pathExists ["gone"] = false ∧
    fsA.pathExists [] = true ∧
    load_directory fsA { exA with current_path := ["d"] } ["gone"] =
      { exA with current_path := ["d"] } := by decide

/-- C7 (amended): `load_directory` on a target that does not exist or is
not a directory is a silent no-op: the navigation state is returned
unchanged, no error is signalled and no fallback navigation occurs. -/
theorem C7_stale_directory_silent_noop (fs : FS) (ex : Explorer) (p : FPath)
    (h : (fs.pathExists p && fs.isDirB p) = false) :
    load_directory fs ex p = ex := by
  simp [load_directory, h]

/-- C7 witness: the amended theorem evaluated at `fsA`, `exA`, `gone`. -/
theorem C7_witness : load_directory fsA exA ["gone"] = exA :=
  C7_stale_directory_silent_noop fsA exA ["gone"] (by decide)

/-- C8: in every listing produced by `load_directory` and in every
filtered view of it — for every query, the empty one included — exactly
one entry is the synthetic parent link, and it is the first entry. -/
theorem C8_parent_link_unique_and_first (fs : FS) (ex : Explorer) (p : FPath) (q : String)
    (he : fs.pathExists p = true) (hd : fs.isDirB p = true) :
    ((load_directory fs ex p).entries.countP (fun e => e.is_up) = 1 ∧
      (load_directory fs ex p).entries.head? = some (upEntryOf p)) ∧
    ((apply_filter (load_directory fs ex p) q).children.countP (fun e => e.is_up) = 1 ∧
      (apply_filter (load_directory fs ex p) q).children.head? = some (upEntryOf p)) := by
  obtain ⟨hent, -⟩ := load_directory_entries_eq fs ex p he hd
  have hrest := childEntries_not_up ex.show_hidden p (listedChildren fs p)
  constructor
  · rw [hent]
    exact ⟨up_first_countP _ p hrest, rfl⟩
  · by_cases hq : q = ""
    · have hch : (apply_filter (load_directory fs ex p) q).children =
          (load_directory fs ex p).entries := by
        simp [apply_filter, hq, render_entries]
      rw [hch, hent]
      exact ⟨up_first_countP _ p hrest, rfl⟩
    · have hch : (apply_filter (load_directory fs ex p) q).children =
          upEntryOf p :: (childEntries ex.show_hidden p (listedChildren fs p)).filter
            (fun e => e.is_up || strContains (lowerStr e.name) (lowerStr q)) := by
        simp [apply_filter, hq, render_entries, hent, List.filter_cons, upEntryOf]
      rw [hch]
      refine ⟨up_first_countP _ p ?_, rfl⟩
      intro e hef
      exact hrest e (List.mem_of_mem_filter hef)

/-- C8 witness: the theorem evaluated at `fsA`, the initial explorer,
the root directory and the non-empty query `"a"`. -/
theorem C8_witness :
    ((load_directory fsA exInit []).entries.countP (fun e => e.is_up) = 1 ∧
      (load_directory fsA exInit []).entries.head? = some (upEntryOf [])) ∧
    ((apply_filter (load_directory fsA exInit []) "a").children.countP (fun e => e.is_up) = 1 ∧
      (apply_filter (load_directory fsA exInit []) "a").children.head? = some (upEntryOf [])) :=
  C8_parent_link_unique_and_first fsA exInit [] "a" (by decide) (by decide)

/-- C9: when enumerating a directory raises `PermissionError`, listing
it still succeeds — the explorer moves to that directory and shows it
empty except for the parent-link entry. -/
theorem C9_permission_error_gives_empty_listing (fs : FS) (ex : Explorer) (p : FPath)
    (he : fs.pathExists p = true) (hd : fs.isDirB p = true)
    (hc : fs.childrenOf p = none) :
    (load_directory fs ex p).current_path = p ∧
    (load_directory fs ex p).entries = [upEntryOf p] ∧
    (load_directory fs ex p).children = [upEntryOf p] := by
  refine ⟨?_, ?_, ?_⟩ <;>
    simp [load_directory, he, hd, listedChildren, hc, childEntries, render_entries]

/-- C9 witness: the theorem evaluated at `fsPerm` (every enumeration
denied) and the root directory. -/
theorem C9_witness :
    (load_directory fsPerm exInit []).current_path = [] ∧
    (load_directory fsPerm exInit []).entries = [upEntryOf []] ∧
    (load_directory fsPerm exInit []).children = [upEntryOf []] :=
  C9_permission_error_gives_empty_listing fsPerm exInit []
    (by decide) (by decide) (by decide)

/-- C10: while the save-as prompt is active, submitting the input always
leaves save-path mode and restores the filter placeholder and an empty
value — the `finally` block runs whether the path resolves, the write
fails, or resolving raises — and a mere change of the input text is
ignored entirely, so it never alters the directory filter view. -/
theorem C10_save_prompt_always_restores_input (fs : FS) (s : IDE) (v w : String)
    (ha : s.awaiting_save_path = true) :
    ((step fs (Op.inputSubmitted v) s).1.awaiting_save_path = false ∧
      (step fs (Op.inputSubmitted v) s).1.filter_placeholder = filterPlaceholder ∧
      (step fs (Op.inputSubmitted v) s).1.filter_value = "") ∧
    step fs (Op.inputChanged w) s = (s, []) := by
  constructor
  · rcases hr : fs.resolvePath v with - | p
    · simp [step, on_input_submitted, ha, hr]
    · by_cases hw : fs.writeOk p = true
      · simp [step, on_input_submitted, ha, hr, write_to_path, hw]
      · rw [Bool.not_eq_true] at hw
        simp [step, on_input_submitted, ha, hr, write_to_path, hw]
  · simp [step, on_input_changed, ha]

/-- C10 witness: the theorem evaluated at `fsA` (where resolving the
typed path raises) and the prompt-active state `sAwait`. -/
theorem C10_witness :
    ((step fsA (Op.inputSubmitted "/tmp/x.txt") sAwait).1.awaiting_save_path = false ∧
      (step fsA (Op.inputSubmitted "/tmp/x.txt") sAwait).1.filter_placeholder = filterPlaceholder ∧
      (step fsA (Op.inputSubmitted "/tmp/x.txt") sAwait).1.filter_value = "") ∧
    step fsA (Op.inputChanged "abc") sAwait = (sAwait, []) :=
  C10_save_prompt_always_restores_input fsA sAwait "/tmp/x.txt" "abc" (by decide)

end TermIDE
